import Mathlib

/-!
Verification development for the Solari expense-tracking repository.

This file gives a shallow embedding, in Lean 4, of the parts of the
repository that carry its invariants:

* `commons/utils.py` — transaction-identity generation (fingerprint + MD5);
* `telegram-bot/sheet_monitor.py` — the cursor-based incremental reader
  (`SheetMonitor.get_rows`, `SheetMonitor.get_new_rows`);
* `telegram-bot/conversation_context.py` — the conversation context store;
* `telegram-bot/conversation_state_machine.py` — the share-amount handler
  and transaction completion;
* `telegram-bot/persistence/persistence_wrapper.py` — the multi-sink
  persistence wrapper.

Python machine behaviour is modelled explicitly: exceptions become
`Except PyErr`, Python `dict`s become insertion-ordered association lists,
Python `float` values arising in the flows we verify become `Rat`
(the concrete amounts involved are decimal and compare identically),
and external collaborators (the Google Sheets transport, the Telegram bot
transport, the persistence backends) become explicit behaviour parameters.
-/

set_option maxHeartbeats 1000000
set_option maxRecDepth 10000

/-- A Python exception class, abstracted to the distinctions the embedded
code can observe (it only ever catches `ValueError` specifically; every
other handler is a catch-all). -/
inductive PyErr where
  | attributeError
  | typeError
  | valueError
  | telegramError
  | exn
  deriving DecidableEq, Repr

/-! ## Insertion-ordered association lists (Python `dict` model)

Python dicts preserve insertion order; assignment to an existing key
replaces the value in place, assignment to a fresh key appends, and
`del` removes the key.  `alGet` is `dict.get` (first occurrence wins,
matching a genuine dict where keys are unique). -/

def alGet {α β : Type} [DecidableEq α] (k : α) : List (α × β) → Option β
  | [] => none
  | (k', v) :: rest => if k' = k then some v else alGet k rest

def alSet {α β : Type} [DecidableEq α] (k : α) (v : β) : List (α × β) → List (α × β)
  | [] => [(k, v)]
  | (k', v') :: rest => if k' = k then (k, v) :: rest else (k', v') :: alSet k v rest

def alErase {α β : Type} [DecidableEq α] (k : α) : List (α × β) → List (α × β)
  | [] => []
  | (k', v) :: rest => if k' = k then alErase k rest else (k', v) :: alErase k rest

theorem alGet_alSet_self {α β : Type} [DecidableEq α] (k : α) (v : β) (l : List (α × β)) :
    alGet k (alSet k v l) = some v := by
  induction l with
  | nil => simp [alGet, alSet]
  | cons p rest ih =>
    obtain ⟨k', v'⟩ := p
    by_cases h : k' = k
    · simp [alGet, alSet, h]
    · simp [alGet, alSet, h, ih]

theorem alGet_alSet_ne {α β : Type} [DecidableEq α] (k k' : α) (v : β) (l : List (α × β))
    (h : k' ≠ k) : alGet k' (alSet k v l) = alGet k' l := by
  have hk : ¬k = k' := fun hh => h hh.symm
  induction l with
  | nil => simp [alGet, alSet, hk]
  | cons p rest ih =>
    obtain ⟨k₀, v₀⟩ := p
    by_cases h0 : k₀ = k
    · subst h0
      simp [alGet, alSet, hk]
    · simp [alGet, alSet, h0, ih]

theorem alGet_alErase_self {α β : Type} [DecidableEq α] (k : α) (l : List (α × β)) :
    alGet k (alErase k l) = none := by
  induction l with
  | nil => simp [alGet, alErase]
  | cons p rest ih =>
    obtain ⟨k₀, v₀⟩ := p
    by_cases h0 : k₀ = k
    · simpa [alErase, h0] using ih
    · simpa [alErase, alGet, h0] using ih

theorem alGet_alErase_ne {α β : Type} [DecidableEq α] (k k' : α) (l : List (α × β))
    (h : k' ≠ k) : alGet k' (alErase k l) = alGet k' l := by
  have hk : ¬k = k' := fun hh => h hh.symm
  induction l with
  | nil => simp [alGet, alErase]
  | cons p rest ih =>
    obtain ⟨k₀, v₀⟩ := p
    by_cases h0 : k₀ = k
    · subst h0
      simpa [alErase, alGet, hk] using ih
    · simp [alErase, alGet, h0, ih]

theorem alGet_of_mem_nodup {α β : Type} [DecidableEq α] {k : α} {v : β} {l : List (α × β)}
    (hnd : (l.map Prod.fst).Nodup) (hm : (k, v) ∈ l) : alGet k l = some v := by
  induction l with
  | nil => cases hm
  | cons p rest ih =>
    obtain ⟨k₀, v₀⟩ := p
    rcases List.mem_cons.mp hm with heq | htl
    · cases heq
      simp [alGet]
    · have hk : k₀ ≠ k := by
        intro h0
        subst h0
        have : k₀ ∈ rest.map Prod.fst := List.mem_map.mpr ⟨(k₀, v), htl, rfl⟩
        exact (List.nodup_cons.mp hnd).1 this
      simp only [alGet, if_neg hk]
      exact ih (List.nodup_cons.mp hnd).2 htl

/-! ## `SheetMonitor` (src/telegram-bot/sheet_monitor.py)

The sheet transport is an external collaborator; we model one poll cycle
by the outcomes of the (at most) two `sheet.get_all_values()` attempts and
the one `connect()` between them.  `rawRead1` is the first attempt,
`reconnect` the outcome of `self.connect()` (which re-raises any failure),
`rawRead2` the post-reconnect attempt.  A `.error` value means the call
raised. -/

abbrev SheetRows := List (List String)

/-- `SheetMonitor.get_rows` (sheet_monitor.py lines 48-55): try the read;
on any exception, reconnect and retry exactly once.  An exception from
`connect()` or from the second read propagates to the caller. -/
def SheetMonitor.get_rows (rawRead1 : Except PyErr SheetRows)
    (reconnect : Except PyErr Unit) (rawRead2 : Except PyErr SheetRows) :
    Except PyErr SheetRows :=
  match rawRead1 with
  | .ok rows => .ok rows
  | .error _ =>
    match reconnect with
    | .error e => .error e
    | .ok _ => rawRead2

/-- One parsed row dictionary, as built in `get_new_rows`
(sheet_monitor.py lines 83-91): the first seven cells keyed by the
`KEY_*` constants. -/
structure RowDict where
  transaction_id : String
  date : String
  time : String
  recipient : String
  amount : String
  bank : String
  mode : String
  deriving DecidableEq, Repr

/-- The per-row step of the loop body (lines 81-92): a row with at least
`min_expected_columns = 7` cells becomes a dictionary; shorter rows are
silently dropped. -/
def rowToDict (row : List String) : Option RowDict :=
  if row.length ≥ 7 then
    some ⟨row.getD 0 "", row.getD 1 "", row.getD 2 "", row.getD 3 "",
          row.getD 4 "", row.getD 5 "", row.getD 6 ""⟩
  else none

/-- The loop of lines 80-92: iterate `i` from `max(1, last_processed_row + 1)`
to `len(rows) - 1`, collecting the rows with enough cells.  Iterating the
indices from `start` upward over `rows` is the same as walking
`rows.drop start`. -/
def newRowsFrom (rows : SheetRows) (start : Nat) : List RowDict :=
  (rows.drop start).filterMap rowToDict

/-- The body of `SheetMonitor.get_new_rows` after `get_rows` has returned
a snapshot (sheet_monitor.py lines 68-99): empty snapshot and short header
return `([], last_processed_row)`; otherwise the strictly-after slice is
collected and, if nonempty, the cursor becomes `len(rows) - 1`.  The cursor
is a Python `int`, hence `Int` here. -/
def get_new_rows_core (rows : SheetRows) (last : Int) : List RowDict × Int :=
  if rows = [] then ([], last)
  else if (rows.headD []).length < 7 then ([], last)
  else
    let start : Nat := (max 1 (last + 1)).toNat
    let newRows := newRowsFrom rows start
    if newRows = [] then ([], last)
    else (newRows, (rows.length : Int) - 1)

/-- `SheetMonitor.get_new_rows` (sheet_monitor.py lines 57-102): the whole
body sits in a `try`/`except Exception` that converts any exception —
in particular a read failure surviving `get_rows`'s single retry — into
`([], last_processed_row)`. -/
def SheetMonitor.get_new_rows (rawRead1 : Except PyErr SheetRows)
    (reconnect : Except PyErr Unit) (rawRead2 : Except PyErr SheetRows)
    (last : Int) : List RowDict × Int :=
  match SheetMonitor.get_rows rawRead1 reconnect rawRead2 with
  | .ok rows => get_new_rows_core rows last
  | .error _ => ([], last)

example :
    SheetMonitor.get_new_rows
      (.ok [["h1", "h2", "h3", "h4", "h5", "h6", "h7"],
            ["t1", "2024-01-05", "10:00", "Cafe X", "250", "HDFC", "UPI"]])
      (.ok ()) (.ok []) 0 =
    ([⟨"t1", "2024-01-05", "10:00", "Cafe X", "250", "HDFC", "UPI"⟩], 1) := by
  decide

example : SheetMonitor.get_new_rows (.error .exn) (.ok ()) (.error .exn) 5 = ([], 5) := by
  decide

example :
    SheetMonitor.get_new_rows
      (.ok [["h1", "h2", "h3", "h4", "h5", "h6", "h7"],
            ["short", "row"],
            ["t2", "d", "t", "r", "a", "b", "m"]])
      (.ok ()) (.ok []) 0 =
    ([⟨"t2", "d", "t", "r", "a", "b", "m"⟩], 2) := by
  decide

/-! ## Transaction identity (src/commons/utils.py)

`get_transaction_id` concatenates the four fields with `|`, encodes the
fingerprint as UTF-8 and renders the 16-byte MD5 digest as lowercase hex
(`'{:02x}'.format(b)` per byte).  The MD5 algorithm below is the RFC 1321
computation that `hashlib.md5` performs, written over `Nat` with explicit
`% 2^32` truncation; bytes are `Nat`s below 256. -/

/-- UTF-8 encoding of one scalar value, as performed by `str.encode('utf-8')`. -/
def utf8EncodeChar (c : Char) : List Nat :=
  let n := c.toNat
  if n < 0x80 then [n]
  else if n < 0x800 then
    [0xC0 ||| (n >>> 6), 0x80 ||| (n &&& 0x3F)]
  else if n < 0x10000 then
    [0xE0 ||| (n >>> 12), 0x80 ||| ((n >>> 6) &&& 0x3F), 0x80 ||| (n &&& 0x3F)]
  else
    [0xF0 ||| (n >>> 18), 0x80 ||| ((n >>> 12) &&& 0x3F),
     0x80 ||| ((n >>> 6) &&& 0x3F), 0x80 ||| (n &&& 0x3F)]

def utf8Encode (s : String) : List Nat :=
  (s.toList.map utf8EncodeChar).flatten

/-- The 64 MD5 sine-table constants `K[i] = floor(2^32 * abs(sin(i+1)))`. -/
def md5K : List Nat :=
  [0xd76aa478, 0xe8c7b756, 0x242070db, 0xc1bdceee,
   0xf57c0faf, 0x4787c62a, 0xa8304613, 0xfd469501,
   0x698098d8, 0x8b44f7af, 0xffff5bb1, 0x895cd7be,
   0x6b901122, 0xfd987193, 0xa679438e, 0x49b40821,
   0xf61e2562, 0xc040b340, 0x265e5a51, 0xe9b6c7aa,
   0xd62f105d, 0x02441453, 0xd8a1e681, 0xe7d3fbc8,
   0x21e1cde6, 0xc33707d6, 0xf4d50d87, 0x455a14ed,
   0xa9e3e905, 0xfcefa3f8, 0x676f02d9, 0x8d2a4c8a,
   0xfffa3942, 0x8771f681, 0x6d9d6122, 0xfde5380c,
   0xa4beea44, 0x4bdecfa9, 0xf6bb4b60, 0xbebfbc70,
   0x289b7ec6, 0xeaa127fa, 0xd4ef3085, 0x04881d05,
   0xd9d4d039, 0xe6db99e5, 0x1fa27cf8, 0xc4ac5665,
   0xf4292244, 0x432aff97, 0xab9423a7, 0xfc93a039,
   0x655b59c3, 0x8f0ccc92, 0xffeff47d, 0x85845dd1,
   0x6fa87e4f, 0xfe2ce6e0, 0xa3014314, 0x4e0811a1,
   0xf7537e82, 0xbd3af235, 0x2ad7d2bb, 0xeb86d391]

/-- The 64 MD5 per-round left-rotation amounts. -/
def md5S : List Nat :=
  [7, 12, 17, 22, 7, 12, 17, 22, 7, 12, 17, 22, 7, 12, 17, 22,
   5, 9, 14, 20, 5, 9, 14, 20, 5, 9, 14, 20, 5, 9, 14, 20,
   4, 11, 16, 23, 4, 11, 16, 23, 4, 11, 16, 23, 4, 11, 16, 23,
   6, 10, 15, 21, 6, 10, 15, 21, 6, 10, 15, 21, 6, 10, 15, 21]

/-- 32-bit left rotation on a word below `2^32`. -/
def md5leftrot (x n : Nat) : Nat :=
  ((x <<< n) ||| (x >>> (32 - n))) % 4294967296

/-- The MD5 round function for operation `i` (the four quarters use F, G, H, I). -/
def md5F (i b c d : Nat) : Nat :=
  if i < 16 then (b &&& c) ||| ((b ^^^ 0xFFFFFFFF) &&& d)
  else if i < 32 then (d &&& b) ||| ((d ^^^ 0xFFFFFFFF) &&& c)
  else if i < 48 then b ^^^ c ^^^ d
  else c ^^^ (b ||| (d ^^^ 0xFFFFFFFF))

/-- The message-word index used by operation `i`. -/
def md5G (i : Nat) : Nat :=
  if i < 16 then i
  else if i < 32 then (5 * i + 1) % 16
  else if i < 48 then (3 * i + 5) % 16
  else (7 * i) % 16

/-- Little-endian byte rendering of the low `n` bytes of `x`. -/
def leBytes (x n : Nat) : List Nat :=
  (List.range n).map (fun i => x / 256 ^ i % 256)

/-- MD5 padding: a `0x80` byte, zeros to 56 mod 64, then the bit length
as 8 little-endian bytes. -/
def md5Pad (msg : List Nat) : List Nat :=
  msg ++ [0x80] ++ List.replicate ((120 - (msg.length + 1) % 64) % 64) 0
      ++ leBytes (8 * msg.length) 8

/-- Little-endian 32-bit word `j` of a 64-byte chunk. -/
def md5Word (chunk : List Nat) (j : Nat) : Nat :=
  chunk.getD (4 * j) 0 + 256 * chunk.getD (4 * j + 1) 0 +
    65536 * chunk.getD (4 * j + 2) 0 + 16777216 * chunk.getD (4 * j + 3) 0

/-- One of the 64 MD5 operations on the running `(a, b, c, d)` state. -/
def md5Op (chunk : List Nat) (st : Nat × Nat × Nat × Nat) (i : Nat) :
    Nat × Nat × Nat × Nat :=
  let a := st.1
  let b := st.2.1
  let c := st.2.2.1
  let d := st.2.2.2
  let f := md5F i b c d
  let g := md5G i
  let sum := (a + f + md5K.getD i 0 + md5Word chunk g) % 4294967296
  let nb := (b + md5leftrot sum (md5S.getD i 0)) % 4294967296
  (d, nb, b, c)

/-- Process one 64-byte chunk and add the result into the state mod `2^32`. -/
def md5ProcessChunk (st : Nat × Nat × Nat × Nat) (chunk : List Nat) :
    Nat × Nat × Nat × Nat :=
  let r := (List.range 64).foldl (md5Op chunk) st
  ((st.1 + r.1) % 4294967296, (st.2.1 + r.2.1) % 4294967296,
   (st.2.2.1 + r.2.2.1) % 4294967296, (st.2.2.2 + r.2.2.2) % 4294967296)

/-- Split a padded message into its 64-byte chunks. -/
def md5Chunks (bytes : List Nat) : List (List Nat) :=
  (List.range (bytes.length / 64)).map (fun i => (bytes.drop (64 * i)).take 64)

/-- `hashlib.md5(msg).digest()`: the 16 output bytes. -/
def md5Bytes (msg : List Nat) : List Nat :=
  let st := (md5Chunks (md5Pad msg)).foldl md5ProcessChunk
      (0x67452301, 0xefcdab89, 0x98badcfe, 0x10325476)
  leBytes st.1 4 ++ leBytes st.2.1 4 ++ leBytes st.2.2.1 4 ++ leBytes st.2.2.2 4

/-- One lowercase hexadecimal digit, as produced by `'{:02x}'.format`. -/
def hexDigitChar (n : Nat) : Char :=
  if n < 10 then Char.ofNat (48 + n) else Char.ofNat (87 + n)

/-- The two lowercase hex characters of one byte (`'{:02x}'.format(b)`). -/
def byteToHex (b : Nat) : List Char :=
  [hexDigitChar (b / 16), hexDigitChar (b % 16)]

/-- `get_fingerprint_for_transaction` (utils.py lines 4-5): the four fields
joined with the `|` delimiter.  The f-string coerces each field with `str`;
the arguments here are the already-coerced strings. -/
def get_fingerprint_for_transaction (date description amount bank : String) : String :=
  date ++ "|" ++ description ++ "|" ++ amount ++ "|" ++ bank

/-- `generate_transaction_id` (utils.py lines 8-11): UTF-8 encode the
fingerprint, MD5 it, and join the per-byte lowercase hex renderings. -/
def generate_transaction_id (fingerprint : String) : String :=
  String.mk (((md5Bytes (utf8Encode fingerprint)).map byteToHex).flatten)

/-- `get_transaction_id` (utils.py lines 14-16). -/
def get_transaction_id (date description amount bank : String) : String :=
  generate_transaction_id (get_fingerprint_for_transaction date description amount bank)

example : generate_transaction_id "" = "d41d8cd98f00b204e9800998ecf8427e" := by decide

example : generate_transaction_id "abc" = "900150983cd24fb0d6963f7d28e17f72" := by decide

example :
    get_transaction_id "2024-01-05" "Cafe X" "250" "HDFC" =
      "be9b89f5d337f14cfc2bc7a7a4e02712" := by decide

/-! ## Multi-sink persistence wrapper
(src/telegram-bot/persistence/persistence_wrapper.py)

`PersistenceWrapper.write_transaction` (lines 116-135) executes only

    try:
        self.sheet_manager.write_transaction(transaction)
        return True
    except:
        return False

The fan-out to `firebase_manager` and `postgres_manager` is commented out
in the source, so those sinks are never attempted.  The primary call is an
external behaviour: `.ok b` means the call returned the boolean `b`
(which the wrapper discards), `.error e` means it raised.  The wrapper
itself is total — the bare `except` catches every exception class — which
the Lean return type (no `Except`) makes structural. -/

structure WriteOutcome where
  result : Bool
  primaryAttempted : Bool
  firebaseAttempted : Bool
  postgresAttempted : Bool
  deriving DecidableEq, Repr

def PersistenceWrapper.write_transaction (primaryCall : Except PyErr Bool) : WriteOutcome :=
  match primaryCall with
  | .ok _ => ⟨true, true, false, false⟩
  | .error _ => ⟨false, true, false, false⟩

/-- The methods the `SheetMonitor` class defines
(sheet_monitor.py lines 20-148).  There is no `write_transaction` among
them. -/
def sheetMonitorMethods : List String :=
  ["__init__", "connect", "get_rows", "get_new_rows", "update_transaction_details"]

/-- Python attribute dispatch on a method call: `obj.name(...)` raises
`AttributeError` when the object's class defines no such method, and
otherwise behaves as the method's body (`impl`). -/
def pyCallMethod (methods : List String) (name : String)
    (impl : Except PyErr Bool) : Except PyErr Bool :=
  if name ∈ methods then impl else .error .attributeError

/-! ## Conversation context store (src/telegram-bot/conversation_context.py)

Entries are dicts holding the keys `CONTEXT_TRANSACTION` (a `Transaction`
or, before attachment, `None`), `CONTEXT_CONVERSATION_STATE`, and — once a
prompt has been linked — `CONTEXT_RELATED_MESSAGE_IDS`; `none` for the
last field models the key being absent.  The store is
`conversations : dict[user_id, dict[transaction_id, entry]]`.  Guards of
the form `if self.conversations.get(user_id) and ...` test Python
truthiness, so an *empty* per-user dict fails the guard exactly like a
missing one. -/

inductive ConversationState where
  | SELECTING_CATEGORY
  | SELECTING_SHARING_TYPE
  | ENTERING_SHARE_AMOUNT
  | COMPLETED
  deriving DecidableEq, Repr

/-- `Transaction` (src/telegram-bot/persistence/models.py).  `amount` and
`user_share` are Python floats; the decimal values arising in the verified
flows are represented exactly as rationals. -/
structure Transaction where
  transaction_id : String
  date : Option String := none
  time : Option String := none
  recipient : Option String := none
  amount : Rat := 0
  bank : Option String := none
  mode : Option String := none
  category : Option String := none
  is_shared : Bool := false
  user_share : Rat := 0
  deriving DecidableEq, Repr

structure ConvEntry where
  transaction : Option Transaction
  conversation_state : ConversationState
  related_message_ids : Option (List Nat)
  deriving DecidableEq, Repr

abbrev UserConvs := List (String × ConvEntry)
abbrev ConvStore := List (Nat × UserConvs)

/-- `ConversationContextManager.start_conversation` (lines 22-29): ensure
the per-user dict exists (the falsy check also resets an empty one, a
no-op), then replace the entry wholesale — the fresh dict carries only the
transaction and state keys, so any previously linked message ids are
dropped. -/
def start_conversation (s : ConvStore) (user_id : Nat) (t : Transaction)
    (st : ConversationState) : ConvStore :=
  let s' :=
    match alGet user_id s with
    | none => alSet user_id ([] : UserConvs) s
    | some m => if m = [] then alSet user_id ([] : UserConvs) s else s
  let m := (alGet user_id s').getD []
  alSet user_id (alSet t.transaction_id ⟨some t, st, none⟩ m) s'

/-- The guard-and-mutate pattern shared by `update_state`,
`update_category`, `update_sharing_status`, `update_user_share` and
`end_conversation`-style methods: fall through silently unless
`self.conversations.get(user_id)` is truthy (nonempty) and holds the
transaction id; otherwise rewrite that one entry with `f`. -/
def updateEntry (f : ConvEntry → ConvEntry) (s : ConvStore) (user_id : Nat)
    (transaction_id : String) : ConvStore :=
  match alGet user_id s with
  | none => s
  | some m =>
    if m = [] then s
    else
      match alGet transaction_id m with
      | none => s
      | some e => alSet user_id (alSet transaction_id (f e) m) s

/-- `update_state` (conversation_context.py lines 31-33). -/
def update_state (s : ConvStore) (user_id : Nat) (transaction_id : String)
    (st : ConversationState) : ConvStore :=
  updateEntry (fun e => { e with conversation_state := st }) s user_id transaction_id

/-- The placeholder `Transaction(transaction_id)` synthesised when the
entry's transaction is falsy (`None`). -/
def placeholderTxn (transaction_id : String) : Transaction :=
  { transaction_id := transaction_id }

/-- `update_category` (lines 35-40). -/
def update_category (s : ConvStore) (user_id : Nat) (transaction_id : String)
    (category : String) : ConvStore :=
  updateEntry
    (fun e =>
      let t := (e.transaction.getD (placeholderTxn transaction_id))
      { e with transaction := some { t with category := some category } })
    s user_id transaction_id

/-- `update_sharing_status` (lines 42-47). -/
def update_sharing_status (s : ConvStore) (user_id : Nat) (transaction_id : String)
    (is_shared : Bool) : ConvStore :=
  updateEntry
    (fun e =>
      let t := (e.transaction.getD (placeholderTxn transaction_id))
      { e with transaction := some { t with is_shared := is_shared } })
    s user_id transaction_id

/-- `update_user_share` (lines 49-54). -/
def update_user_share (s : ConvStore) (user_id : Nat) (transaction_id : String)
    (share_amount : Rat) : ConvStore :=
  updateEntry
    (fun e =>
      let t := (e.transaction.getD (placeholderTxn transaction_id))
      { e with transaction := some { t with user_share := share_amount } })
    s user_id transaction_id

/-- `get_conversation` (lines 56-60): `None` when the per-user dict is
missing or falsy (empty), else the entry lookup. -/
def get_conversation (s : ConvStore) (user_id : Nat) (transaction_id : String) :
    Option ConvEntry :=
  match alGet user_id s with
  | none => none
  | some m => if m = [] then none else alGet transaction_id m

/-- `get_conversations_by_state` (lines 62-69): the insertion-ordered
filtering of the user's conversations by state. -/
def get_conversations_by_state (s : ConvStore) (user_id : Nat)
    (target : ConversationState) : UserConvs :=
  ((alGet user_id s).getD []).filter
    (fun p => decide (p.2.conversation_state = target))

/-- `end_conversation` (lines 71-73): guarded `del`. -/
def end_conversation (s : ConvStore) (user_id : Nat) (transaction_id : String) :
    ConvStore :=
  match alGet user_id s with
  | none => s
  | some m =>
    if m = [] then s
    else
      match alGet transaction_id m with
      | none => s
      | some _ => alSet user_id (alErase transaction_id m) s

/-- Modelled from the spec: `add_message_id_to_conversation_context` — the
spec's `link_message(user_id, transaction_id, message_id)` — is called four
times by `conversation_state_machine.py` but its definition is missing
from `ConversationContextManager` in the source tree; per the spec it
"appends a message identifier to `related_message_ids`".  It is modelled
with the same silent guard as every other mutator of the store, appending
to the (possibly not yet present) `related_message_ids` list. -/
def add_message_id_to_conversation_context (s : ConvStore) (user_id : Nat)
    (transaction_id : String) (message_id : Nat) : ConvStore :=
  updateEntry
    (fun e =>
      { e with related_message_ids := some (e.related_message_ids.getD [] ++ [message_id]) })
    s user_id transaction_id

/-! ## Conversation state machine
(src/telegram-bot/conversation_state_machine.py)

The Telegram transport is an external collaborator.  Every `await`ed send
is a behaviour parameter: `.ok` means delivered (for a re-prompt,
carrying the new message id the transport assigns), `.error` means the
call raised.  `HandlerResult.raised` records an exception that escapes
the handler (the dispatcher would log it); when it is `some`, everything
after the raising statement never executed. -/

inductive BotMessage where
  | transactionUpdated (t : Transaction)
  | transactionUpdateFailed
  | contextNotFound
  | errorMsg (e : PyErr)
  | invalidShareNegative
  | invalidShareExceedsTotal (share total : Rat)
  | invalidAmountFormat
  deriving DecidableEq, Repr

structure HandlerResult where
  store : ConvStore
  sent : List BotMessage
  persisted : Option Transaction
  raised : Option PyErr
  deriving DecidableEq, Repr

/-- Outcomes of the three sends `complete_transaction` can make:
the terminal confirmation (success or failure text), the generic error
message in the `except` handler, and the context-not-found reply. -/
structure CompleteTransport where
  confirmSend : Except PyErr Unit
  errorSend : Except PyErr Unit
  notFoundSend : Except PyErr Unit
  deriving Repr

/-- Line 267: `transaction.user_share = transaction.amount if not
transaction.is_shared else transaction.user_share`. -/
def finalizeShare (t : Transaction) : Transaction :=
  if t.is_shared then t else { t with user_share := t.amount }

/-- `ConversationStateMachine.complete_transaction` (lines 256-307).
`wp t` is the behaviour of the primary sink call made by
`PersistenceWrapper.write_transaction` for transaction `t`.  Python
mutates the held `Transaction` in place at line 267, so the store is
rewritten before persistence; `end_conversation` runs after the
`try`/`except`, hence it is skipped when the `except` handler's own send
raises. -/
def ConversationStateMachine.complete_transaction
    (wp : Transaction → Except PyErr Bool) (tr : CompleteTransport)
    (s : ConvStore) (user_id : Nat) (transaction_id : String) : HandlerResult :=
  match get_conversation s user_id transaction_id with
  | none =>
    match tr.notFoundSend with
    | .ok _ => ⟨s, [.contextNotFound], none, none⟩
    | .error e => ⟨s, [], none, some e⟩
  | some en =>
    match en.transaction with
    | none =>
      -- `transaction` is `None`: evaluating `transaction.is_shared` raises
      -- `AttributeError`, caught by `except Exception`.
      match tr.errorSend with
      | .ok _ =>
        ⟨end_conversation s user_id transaction_id, [.errorMsg .attributeError], none, none⟩
      | .error e2 => ⟨s, [], none, some e2⟩
    | some t =>
      let t' := finalizeShare t
      let s1 := updateEntry (fun e => { e with transaction := some t' }) s user_id transaction_id
      let success := (PersistenceWrapper.write_transaction (wp t')).result
      let msg := if success then BotMessage.transactionUpdated t'
                 else BotMessage.transactionUpdateFailed
      match tr.confirmSend with
      | .ok _ => ⟨end_conversation s1 user_id transaction_id, [msg], some t', none⟩
      | .error e1 =>
        match tr.errorSend with
        | .ok _ => ⟨end_conversation s1 user_id transaction_id, [.errorMsg e1], some t', none⟩
        | .error e2 => ⟨s1, [], some t', some e2⟩

/-- An inbound Telegram message, reduced to the fields the handler reads:
sender, the id of the message it replies to (if any), and its text. -/
structure MsgBody where
  from_user : Nat
  reply_to : Option Nat
  text : String
  deriving DecidableEq, Repr

def isDigitChar (c : Char) : Bool :=
  decide ('0' ≤ c) && decide (c ≤ '9')

def digitsVal (cs : List Char) : Nat :=
  cs.foldl (fun a c => a * 10 + (c.toNat - 48)) 0

def parseUnsignedDecimal (cs : List Char) : Option Rat :=
  let intPart := cs.takeWhile isDigitChar
  let rest := cs.dropWhile isDigitChar
  match rest with
  | [] => if intPart = [] then none else some ((digitsVal intPart : Rat))
  | '.' :: frac =>
    if frac.all isDigitChar ∧ (intPart ≠ [] ∨ frac ≠ []) then
      some ((digitsVal intPart : Rat) + (digitsVal frac : Rat) / ((10 : Rat) ^ frac.length))
    else none
  | _ => none

def isSpaceChar (c : Char) : Bool :=
  decide (c = ' ') || decide (c = '\t') || decide (c = '\n') || decide (c = '\r')

/-- Leading- and trailing-whitespace stripping (`str.strip()`), performed
once here for the handler's `message.text.strip()` (`float` itself strips
again, which is idempotent). -/
def stripChars (cs : List Char) : List Char :=
  ((cs.dropWhile isSpaceChar).reverse.dropWhile isSpaceChar).reverse

/-- Python's `float(message.text.strip())` on the handler's input, as an
exact decimal value (`none` = `ValueError`).  Signed finite decimal
literals — the only shapes the verified properties evaluate — are parsed
exactly; Python's exotic accepted spellings (exponents, `inf`, `nan`) are
not modelled and fall to `none`, which only selects the re-prompt branch
and cannot affect any store-frame property. -/
def parsePyFloat (s : String) : Option Rat :=
  match stripChars s.toList with
  | [] => none
  | '-' :: cs => (parseUnsignedDecimal cs).map (fun q => -q)
  | '+' :: cs => parseUnsignedDecimal cs
  | cs => parseUnsignedDecimal cs

/-- The `next(...)` generator of lines 205-209: scan the waiting
conversations in dict order for the first whose
`related_message_ids` contains the replied-to id.  When an entry's ids key
is absent, `reply_to_message_id in None` raises `TypeError`. -/
def findMatching (reply_to : Nat) : UserConvs → Except PyErr (Option String)
  | [] => .ok none
  | (tid, e) :: rest =>
    match e.related_message_ids with
    | none => .error .typeError
    | some ids => if reply_to ∈ ids then .ok (some tid) else findMatching reply_to rest

/-- `ConversationStateMachine.share_amount_entered` (lines 187-254).
`promptSend` is the behaviour of the single re-prompt `reply_text` the
handler can make (returning the new prompt's message id); `wp`/`tr`
parameterise the completion it may tail-call.  Faithful details: the
matched id is re-tested for truthiness (`if not matching_transaction_id`),
so an empty-string transaction id is treated as no match; the text is
parsed before the total is read; only `ValueError` is caught, so a `None`
transaction raises out of the handler. -/
def ConversationStateMachine.share_amount_entered
    (wp : Transaction → Except PyErr Bool) (promptSend : Except PyErr Nat)
    (tr : CompleteTransport) (s : ConvStore) (msg : Option MsgBody) : HandlerResult :=
  match msg with
  | none => ⟨s, [], none, none⟩
  | some m =>
    match m.reply_to with
    | none => ⟨s, [], none, none⟩
    | some rid =>
      let uid := m.from_user
      let waiting := get_conversations_by_state s uid .ENTERING_SHARE_AMOUNT
      if waiting = [] then ⟨s, [], none, none⟩
      else
        match findMatching rid waiting with
        | .error e => ⟨s, [], none, some e⟩
        | .ok none => ⟨s, [], none, none⟩
        | .ok (some tid) =>
          if tid = "" then ⟨s, [], none, none⟩
          else
            match parsePyFloat m.text with
            | none =>
              match promptSend with
              | .error e => ⟨s, [], none, some e⟩
              | .ok mid =>
                ⟨add_message_id_to_conversation_context s uid tid mid,
                 [.invalidAmountFormat], none, none⟩
            | some share =>
              match alGet tid waiting with
              | none => ⟨s, [], none, some .typeError⟩
              | some conv =>
                match conv.transaction with
                | none => ⟨s, [], none, some .attributeError⟩
                | some t =>
                  let total := t.amount
                  if share < 0 then
                    match promptSend with
                    | .error e => ⟨s, [], none, some e⟩
                    | .ok mid =>
                      ⟨add_message_id_to_conversation_context s uid tid mid,
                       [.invalidShareNegative], none, none⟩
                  else if share > total then
                    match promptSend with
                    | .error e => ⟨s, [], none, some e⟩
                    | .ok mid =>
                      ⟨add_message_id_to_conversation_context s uid tid mid,
                       [.invalidShareExceedsTotal share total], none, none⟩
                  else
                    let s1 := update_user_share s uid tid share
                    ConversationStateMachine.complete_transaction wp tr s1 uid tid

/-! ## Helper lemmas: cursor reader -/

theorem newRowsFrom_nil_of_le (rows : SheetRows) (start : Nat)
    (h : rows.length ≤ start) : newRowsFrom rows start = [] := by
  unfold newRowsFrom
  rw [List.drop_eq_nil_of_le h]
  rfl

theorem get_new_rows_core_eq (rows : SheetRows) (last : Int) :
    get_new_rows_core rows last =
      if rows = [] then ([], last)
      else if (rows.headD []).length < 7 then ([], last)
      else if newRowsFrom rows ((max 1 (last + 1)).toNat) = [] then ([], last)
      else (newRowsFrom rows ((max 1 (last + 1)).toNat), (rows.length : Int) - 1) := rfl

theorem get_new_rows_core_spec (rows : SheetRows) (last : Int) :
    last ≤ (get_new_rows_core rows last).2
      ∧ ((get_new_rows_core rows last).1 = [] → (get_new_rows_core rows last).2 = last) := by
  rw [get_new_rows_core_eq]
  by_cases h1 : rows = []
  · rw [if_pos h1]
    exact ⟨le_refl last, fun _ => rfl⟩
  · rw [if_neg h1]
    by_cases h2 : (rows.headD []).length < 7
    · rw [if_pos h2]
      exact ⟨le_refl last, fun _ => rfl⟩
    · rw [if_neg h2]
      by_cases h3 : newRowsFrom rows ((max 1 (last + 1)).toNat) = []
      · rw [if_pos h3]
        exact ⟨le_refl last, fun _ => rfl⟩
      · rw [if_neg h3]
        refine ⟨?_, fun hempty => absurd hempty h3⟩
        have hlt : (max 1 (last + 1)).toNat < rows.length := by
          by_contra hge
          push_neg at hge
          exact h3 (newRowsFrom_nil_of_le rows _ hge)
        have hcast : (((max 1 (last + 1)).toNat : Int)) = max 1 (last + 1) :=
          Int.toNat_of_nonneg (by positivity)
        have hlast : last + 1 ≤ max 1 (last + 1) := le_max_right _ _
        have hlt' : (((max 1 (last + 1)).toNat : Int)) < (rows.length : Int) := by
          exact_mod_cast hlt
        have hml : max 1 (last + 1) < (rows.length : Int) := by
          rw [← hcast]
          exact hlt'
        have hfin : last + 1 < (rows.length : Int) := lt_of_le_of_lt hlast hml
        show last ≤ (rows.length : Int) - 1
        omega

theorem get_new_rows_core_repoll (rows : SheetRows) (last : Int) :
    get_new_rows_core rows (get_new_rows_core rows last).2
      = ([], (get_new_rows_core rows last).2) := by
  by_cases h1 : rows = []
  · subst h1
    rfl
  · by_cases h2 : (rows.headD []).length < 7
    · have e1 : get_new_rows_core rows last = ([], last) := by
        rw [get_new_rows_core_eq, if_neg h1, if_pos h2]
      rw [e1, get_new_rows_core_eq, if_neg h1, if_pos h2]
    · by_cases h3 : newRowsFrom rows ((max 1 (last + 1)).toNat) = []
      · have e1 : get_new_rows_core rows last = ([], last) := by
          rw [get_new_rows_core_eq, if_neg h1, if_neg h2, if_pos h3]
        rw [e1, get_new_rows_core_eq, if_neg h1, if_neg h2, if_pos h3]
      · have e1 : get_new_rows_core rows last =
            (newRowsFrom rows ((max 1 (last + 1)).toNat), (rows.length : Int) - 1) := by
          rw [get_new_rows_core_eq, if_neg h1, if_neg h2, if_neg h3]
        rw [e1]
        have hlen : 0 < rows.length := List.length_pos.mpr h1
        have hone : (1 : Int) ≤ (rows.length : Int) := by exact_mod_cast hlen
        have hx : (rows.length : Int) - 1 + 1 = (rows.length : Int) := by ring
        have hstart : (max 1 ((rows.length : Int) - 1 + 1)).toNat = rows.length := by
          rw [hx, max_eq_right hone]
          exact Int.toNat_ofNat rows.length
        have h4 : newRowsFrom rows ((max 1 ((rows.length : Int) - 1 + 1)).toNat) = [] := by
          rw [hstart]
          exact newRowsFrom_nil_of_le rows _ (le_refl _)
        rw [get_new_rows_core_eq, if_neg h1, if_neg h2, if_pos h4]

/-! ## C1 — cursor monotonicity -/

/-- C1.  Cursor monotonicity of `SheetMonitor.get_new_rows`: for every
starting cursor and every behaviour of the sheet read (snapshot, or one or
two raising reads), the returned cursor is at least `last_processed_row`,
and whenever the returned record list is empty — empty snapshot, short
header, no strictly-after valid rows, or any internal exception — the
returned cursor equals `last_processed_row` exactly. -/
theorem C1_cursor_monotone (rawRead1 : Except PyErr SheetRows)
    (reconnect : Except PyErr Unit) (rawRead2 : Except PyErr SheetRows) (last : Int) :
    last ≤ (SheetMonitor.get_new_rows rawRead1 reconnect rawRead2 last).2
      ∧ ((SheetMonitor.get_new_rows rawRead1 reconnect rawRead2 last).1 = [] →
          (SheetMonitor.get_new_rows rawRead1 reconnect rawRead2 last).2 = last) := by
  cases h : SheetMonitor.get_rows rawRead1 reconnect rawRead2 with
  | error e => simp [SheetMonitor.get_new_rows, h]
  | ok rows =>
    simpa [SheetMonitor.get_new_rows, h] using get_new_rows_core_spec rows last

/-- C1 witness: the theorem applied at a concrete snapshot, with the
inner implication discharged on the no-new-rows case. -/
theorem C1_cursor_monotone_witness :
    (3 : Int) ≤ (SheetMonitor.get_new_rows (.ok []) (.ok ()) (.ok []) 3).2
      ∧ (SheetMonitor.get_new_rows (.ok []) (.ok ()) (.ok []) 3).2 = 3 :=
  ⟨(C1_cursor_monotone (.ok []) (.ok ()) (.ok []) 3).1,
   (C1_cursor_monotone (.ok []) (.ok ()) (.ok []) 3).2 (by decide)⟩

/-! ## C9 — idempotent re-poll -/

/-- C9.  Idempotent re-poll: against an unchanged source behaviour, a
second call of `get_new_rows` with the cursor returned by the first call
yields the empty record list and the same cursor. -/
theorem C9_idempotent_repoll (rawRead1 : Except PyErr SheetRows)
    (reconnect : Except PyErr Unit) (rawRead2 : Except PyErr SheetRows) (last : Int) :
    SheetMonitor.get_new_rows rawRead1 reconnect rawRead2
        (SheetMonitor.get_new_rows rawRead1 reconnect rawRead2 last).2
      = ([], (SheetMonitor.get_new_rows rawRead1 reconnect rawRead2 last).2) := by
  cases h : SheetMonitor.get_rows rawRead1 reconnect rawRead2 with
  | error e => simp [SheetMonitor.get_new_rows, h]
  | ok rows =>
    simpa [SheetMonitor.get_new_rows, h] using get_new_rows_core_repoll rows last

/-- C9 witness: the theorem applied to a concrete two-row snapshot (the
first poll returns one record and cursor 1; the re-poll is empty). -/
theorem C9_idempotent_repoll_witness :
    SheetMonitor.get_new_rows
        (.ok [["a", "b", "c", "d", "e", "f", "g"], ["1", "2", "3", "4", "5", "6", "7"]])
        (.ok ()) (.ok [])
        (SheetMonitor.get_new_rows
          (.ok [["a", "b", "c", "d", "e", "f", "g"], ["1", "2", "3", "4", "5", "6", "7"]])
          (.ok ()) (.ok []) 0).2
      = ([], (SheetMonitor.get_new_rows
          (.ok [["a", "b", "c", "d", "e", "f", "g"], ["1", "2", "3", "4", "5", "6", "7"]])
          (.ok ()) (.ok []) 0).2) :=
  C9_idempotent_repoll _ _ _ 0

/-! ## C4 — transient-failure retry policy (corrected) -/

/-- C4 counterexample: with both read attempts raising, `get_rows` does
propagate the second failure, but `get_new_rows` — the poll — catches it
and returns `([], 5)` normally: the failure is converted into an empty
result for the cycle instead of propagating out of the poll. -/
theorem C4_counterexample :
    SheetMonitor.get_rows (.error .exn) (.ok ()) (.error .exn) = .error .exn
      ∧ SheetMonitor.get_new_rows (.error .exn) (.ok ()) (.error .exn) 5 = ([], 5) :=
  ⟨rfl, rfl⟩

/-- C4 as amended: a raising read is retried exactly once after a
reconnect (a successful first read is returned as-is, with no retry); a
failure of the reconnect or of the retried read propagates out of
`get_rows`; but `get_new_rows` catches that failure and converts it into
`([], last_processed_row)` — an empty poll result with the cursor
unchanged — rather than letting it escape the poll. -/
theorem C4_retry_once_then_swallow (rows : SheetRows) (rc : Except PyErr Unit)
    (rawRead2 : Except PyErr SheetRows) (e e2 : PyErr) (last : Int) :
    SheetMonitor.get_rows (.ok rows) rc rawRead2 = .ok rows
      ∧ SheetMonitor.get_rows (.error e) (.ok ()) rawRead2 = rawRead2
      ∧ SheetMonitor.get_rows (.error e) (.error e2) rawRead2 = .error e2
      ∧ SheetMonitor.get_new_rows (.error e) (.ok ()) (.error e2) last = ([], last) :=
  ⟨rfl, rfl, rfl, rfl⟩

/-- C4 witness: the amended statement at concrete inputs. -/
theorem C4_retry_once_then_swallow_witness :
    SheetMonitor.get_new_rows (.error .telegramError) (.ok ()) (.error .valueError) 7
      = ([], 7) :=
  (C4_retry_once_then_swallow [] (.ok ()) (.ok []) .telegramError .valueError 7).2.2.2

/-! ## C3 — multi-sink partial-failure policy (corrected) -/

/-- C3 counterexample: at the concrete primary-call behaviour `.ok false`
(the primary sink returned `False` without raising), the wrapper returns
`true` — not the primary sink's result — and neither the Firebase nor the
Postgres sink is attempted. -/
theorem C3_counterexample :
    (PersistenceWrapper.write_transaction (.ok false)).result = true
      ∧ (PersistenceWrapper.write_transaction (.ok false)).firebaseAttempted = false
      ∧ (PersistenceWrapper.write_transaction (.ok false)).postgresAttempted = false := by
  decide

/-- C3 as amended: `write_transaction` returns `true` exactly when the
primary (sheet) sink call returns without raising — the primary's boolean
result is discarded — and `false` when it raises; the secondary sinks
(Firebase, Postgres) are never attempted on any call, their fan-out being
commented out in the source. -/
theorem C3_primary_only_policy (primaryCall : Except PyErr Bool) :
    (∀ b, primaryCall = .ok b →
        (PersistenceWrapper.write_transaction primaryCall).result = true)
      ∧ (∀ e, primaryCall = .error e →
          (PersistenceWrapper.write_transaction primaryCall).result = false)
      ∧ (PersistenceWrapper.write_transaction primaryCall).primaryAttempted = true
      ∧ (PersistenceWrapper.write_transaction primaryCall).firebaseAttempted = false
      ∧ (PersistenceWrapper.write_transaction primaryCall).postgresAttempted = false := by
  cases primaryCall <;> simp [PersistenceWrapper.write_transaction]

/-- C3 witness: the amended theorem applied at a raising primary call. -/
theorem C3_primary_only_policy_witness :
    (PersistenceWrapper.write_transaction (.error .attributeError)).result = false :=
  (C3_primary_only_policy (.error .attributeError)).2.1 .attributeError rfl

/-! ## C10 — wrapper totality; SheetMonitor has no write_transaction -/

/-- C10.  `PersistenceWrapper.write_transaction` is total and
exception-free — its Lean type returns a plain `WriteOutcome`, and every
raising primary call of any exception class maps to `false`, every
non-raising call to `true`; and because `SheetMonitor` defines no
`write_transaction` method, the injected primary sink's attribute dispatch
raises `AttributeError`, so every call of the wrapper with the
`SheetMonitor` primary returns `false` (with no secondary attempted). -/
theorem C10_total_wrapper_always_false_on_sheet_monitor :
    (∀ b, (PersistenceWrapper.write_transaction (.ok b)).result = true)
      ∧ (∀ e, (PersistenceWrapper.write_transaction (.error e)).result = false)
      ∧ (∀ impl : Except PyErr Bool,
          PersistenceWrapper.write_transaction
              (pyCallMethod sheetMonitorMethods "write_transaction" impl)
            = ⟨false, true, false, false⟩) := by
  refine ⟨fun b => rfl, fun e => rfl, fun impl => ?_⟩
  have h : ("write_transaction" ∈ sheetMonitorMethods) = False := by decide
  simp [pyCallMethod, h, PersistenceWrapper.write_transaction]

/-- C10 witness: the theorem applied to a primary sink whose (absent)
method would have returned `True`. -/
theorem C10_total_wrapper_witness :
    (PersistenceWrapper.write_transaction
        (pyCallMethod sheetMonitorMethods "write_transaction" (.ok true))).result
      = false := by
  rw [(C10_total_wrapper_always_false_on_sheet_monitor).2.2 (.ok true)]

/-! ## C2 — identity determinism and shape -/

theorem md5Bytes_length (m : List Nat) : (md5Bytes m).length = 16 := by
  simp [md5Bytes, leBytes]

theorem md5Bytes_lt (m : List Nat) : ∀ b ∈ md5Bytes m, b < 256 := by
  intro b hb
  simp only [md5Bytes, leBytes, List.mem_append, List.mem_map, List.mem_range] at hb
  rcases hb with ((⟨i, _, rfl⟩ | ⟨i, _, rfl⟩) | ⟨i, _, rfl⟩) | ⟨i, _, rfl⟩ <;>
    exact Nat.mod_lt _ (by norm_num)

def lowercaseHexChars : List Char :=
  "0123456789abcdef".toList

theorem hexDigitChar_mem (n : Nat) (h : n < 16) : hexDigitChar n ∈ lowercaseHexChars := by
  interval_cases n <;> decide

theorem hexRender_length (bs : List Nat) :
    ((bs.map byteToHex).flatten).length = 2 * bs.length := by
  induction bs with
  | nil => simp
  | cons b rest ih =>
    simp only [List.map_cons, List.flatten_cons, List.length_append, ih, byteToHex]
    simp
    omega

theorem hexRender_mem (bs : List Nat) (hb : ∀ b ∈ bs, b < 256) :
    ∀ c ∈ (bs.map byteToHex).flatten, c ∈ lowercaseHexChars := by
  intro c hc
  simp only [List.mem_flatten, List.mem_map] at hc
  obtain ⟨l, ⟨b, hbm, rfl⟩, hcl⟩ := hc
  have hb256 : b < 256 := hb b hbm
  simp only [byteToHex, List.mem_cons, List.not_mem_nil, or_false] at hcl
  rcases hcl with rfl | rfl
  · exact hexDigitChar_mem _ (Nat.div_lt_of_lt_mul (by omega))
  · exact hexDigitChar_mem _ (Nat.mod_lt _ (by norm_num))

/-- C2.  `get_transaction_id` is a pure function (equal tuples give equal
IDs), and its value is always a 32-character string of lowercase
hexadecimal digits — the hex rendering of the 16-byte MD5 digest of the
`|`-joined fingerprint, per the `md5Bytes` embedding above whose agreement
with `hashlib.md5` is checked on reference vectors among the examples. -/
theorem C2_identity_deterministic_hex (date description amount bank : String) :
    get_transaction_id date description amount bank
        = get_transaction_id date description amount bank
      ∧ (get_transaction_id date description amount bank).length = 32
      ∧ ∀ c ∈ (get_transaction_id date description amount bank).toList,
          c ∈ lowercaseHexChars := by
  refine ⟨rfl, ?_, ?_⟩
  · show (String.mk (((md5Bytes (utf8Encode
        (get_fingerprint_for_transaction date description amount bank))).map
          byteToHex).flatten)).length = 32
    have h1 := hexRender_length (md5Bytes (utf8Encode
      (get_fingerprint_for_transaction date description amount bank)))
    have h2 := md5Bytes_length (utf8Encode
      (get_fingerprint_for_transaction date description amount bank))
    show (((md5Bytes (utf8Encode
        (get_fingerprint_for_transaction date description amount bank))).map
          byteToHex).flatten).length = 32
    omega
  · intro c hc
    exact hexRender_mem _ (md5Bytes_lt _) c hc

/-- C2 witness: the theorem applied at the spec's sample transaction
fields, with the hex-character condition discharged on the first
character. -/
theorem C2_identity_deterministic_hex_witness :
    (get_transaction_id "2024-01-05" "Cafe X" "250" "HDFC").length = 32 :=
  (C2_identity_deterministic_hex "2024-01-05" "Cafe X" "250" "HDFC").2.1

/-! ## Helper lemmas: conversation store -/

theorem alSet_ne_nil {α β : Type} [DecidableEq α] (k : α) (v : β) (l : List (α × β)) :
    alSet k v l ≠ [] := by
  cases l with
  | nil => simp [alSet]
  | cons p rest =>
    obtain ⟨k₀, v₀⟩ := p
    by_cases h : k₀ = k <;> simp [alSet, h]

theorem alGet_mem {α β : Type} [DecidableEq α] {k : α} {v : β} {l : List (α × β)}
    (h : alGet k l = some v) : (k, v) ∈ l := by
  induction l with
  | nil => simp [alGet] at h
  | cons p rest ih =>
    obtain ⟨k₀, v₀⟩ := p
    by_cases h0 : k₀ = k
    · subst h0
      simp [alGet] at h
      subst h
      exact List.mem_cons_self _ _
    · simp [alGet, h0] at h
      exact List.mem_cons_of_mem _ (ih h)

theorem get_conversation_no_user (s : ConvStore) (u : Nat) (t : String)
    (hm : alGet u s = none) : get_conversation s u t = none := by
  unfold get_conversation
  rw [hm]

theorem get_conversation_of_user (s : ConvStore) (u : Nat) (t : String) (m : UserConvs)
    (hm : alGet u s = some m) (hne : m ≠ []) : get_conversation s u t = alGet t m := by
  unfold get_conversation
  rw [hm]
  show (if m = [] then none else alGet t m) = alGet t m
  rw [if_neg hne]

theorem get_conversation_empty_user (s : ConvStore) (u : Nat) (t : String)
    (hm : alGet u s = some []) : get_conversation s u t = none := by
  unfold get_conversation
  rw [hm]
  rfl

theorem updateEntry_no_user (f : ConvEntry → ConvEntry) (s : ConvStore) (uid : Nat)
    (tid : String) (hm : alGet uid s = none) : updateEntry f s uid tid = s := by
  unfold updateEntry
  rw [hm]

theorem updateEntry_empty_user (f : ConvEntry → ConvEntry) (s : ConvStore) (uid : Nat)
    (tid : String) (hm : alGet uid s = some []) : updateEntry f s uid tid = s := by
  unfold updateEntry
  rw [hm]
  rfl

theorem updateEntry_no_entry (f : ConvEntry → ConvEntry) (s : ConvStore) (uid : Nat)
    (tid : String) (m : UserConvs) (hm : alGet uid s = some m) (hne : m ≠ [])
    (he : alGet tid m = none) : updateEntry f s uid tid = s := by
  unfold updateEntry
  rw [hm]
  show (if m = [] then s else
    match alGet tid m with
    | none => s
    | some e => alSet uid (alSet tid (f e) m) s) = s
  rw [if_neg hne, he]

theorem updateEntry_found (f : ConvEntry → ConvEntry) (s : ConvStore) (uid : Nat)
    (tid : String) (m : UserConvs) (e : ConvEntry) (hm : alGet uid s = some m)
    (hne : m ≠ []) (he : alGet tid m = some e) :
    updateEntry f s uid tid = alSet uid (alSet tid (f e) m) s := by
  unfold updateEntry
  rw [hm]
  show (if m = [] then s else
    match alGet tid m with
    | none => s
    | some e => alSet uid (alSet tid (f e) m) s) = _
  rw [if_neg hne, he]

theorem end_conversation_no_user (s : ConvStore) (uid : Nat) (tid : String)
    (hm : alGet uid s = none) : end_conversation s uid tid = s := by
  unfold end_conversation
  rw [hm]

theorem end_conversation_empty_user (s : ConvStore) (uid : Nat) (tid : String)
    (hm : alGet uid s = some []) : end_conversation s uid tid = s := by
  unfold end_conversation
  rw [hm]
  rfl

theorem end_conversation_no_entry (s : ConvStore) (uid : Nat) (tid : String)
    (m : UserConvs) (hm : alGet uid s = some m) (hne : m ≠ [])
    (he : alGet tid m = none) : end_conversation s uid tid = s := by
  unfold end_conversation
  rw [hm]
  show (if m = [] then s else
    match alGet tid m with
    | none => s
    | some _ => alSet uid (alErase tid m) s) = s
  rw [if_neg hne, he]

theorem end_conversation_found (s : ConvStore) (uid : Nat) (tid : String)
    (m : UserConvs) (e : ConvEntry) (hm : alGet uid s = some m) (hne : m ≠ [])
    (he : alGet tid m = some e) :
    end_conversation s uid tid = alSet uid (alErase tid m) s := by
  unfold end_conversation
  rw [hm]
  show (if m = [] then s else
    match alGet tid m with
    | none => s
    | some _ => alSet uid (alErase tid m) s) = _
  rw [if_neg hne, he]

/-- Reading back an entry other components did not touch: `updateEntry`
only rewrites the `(user_id, transaction_id)` slot. -/
theorem get_conversation_updateEntry_frame (f : ConvEntry → ConvEntry) (s : ConvStore)
    (uid : Nat) (tid : String) (u : Nat) (t : String) (h : ¬(u = uid ∧ t = tid)) :
    get_conversation (updateEntry f s uid tid) u t = get_conversation s u t := by
  cases hm : alGet uid s with
  | none => rw [updateEntry_no_user f s uid tid hm]
  | some m =>
    by_cases hne : m = []
    · subst hne
      rw [updateEntry_empty_user f s uid tid hm]
    · cases he : alGet tid m with
      | none => rw [updateEntry_no_entry f s uid tid m hm hne he]
      | some e =>
        rw [updateEntry_found f s uid tid m e hm hne he]
        by_cases hu : u = uid
        · subst hu
          have ht : t ≠ tid := fun hh => h ⟨rfl, hh⟩
          rw [get_conversation_of_user _ u t (alSet tid (f e) m)
              (alGet_alSet_self u (alSet tid (f e) m) s) (alSet_ne_nil _ _ _),
            get_conversation_of_user s u t m hm hne, alGet_alSet_ne _ _ _ _ ht]
        · unfold get_conversation
          rw [alGet_alSet_ne _ _ _ _ hu]

/-- `updateEntry` on a present entry rewrites exactly that entry. -/
theorem get_conversation_updateEntry_self (f : ConvEntry → ConvEntry) (s : ConvStore)
    (uid : Nat) (tid : String) (e : ConvEntry)
    (h : get_conversation s uid tid = some e) :
    get_conversation (updateEntry f s uid tid) uid tid = some (f e) := by
  cases hm : alGet uid s with
  | none => rw [get_conversation_no_user s uid tid hm] at h; cases h
  | some m =>
    by_cases hne : m = []
    · subst hne
      rw [get_conversation_empty_user s uid tid hm] at h
      cases h
    · rw [get_conversation_of_user s uid tid m hm hne] at h
      rw [updateEntry_found f s uid tid m e hm hne h,
        get_conversation_of_user _ uid tid (alSet tid (f e) m)
          (alGet_alSet_self uid (alSet tid (f e) m) s) (alSet_ne_nil _ _ _),
        alGet_alSet_self]

/-- `end_conversation` only removes the `(user_id, transaction_id)` slot. -/
theorem get_conversation_end_frame (s : ConvStore) (uid : Nat) (tid : String)
    (u : Nat) (t : String) (h : ¬(u = uid ∧ t = tid)) :
    get_conversation (end_conversation s uid tid) u t = get_conversation s u t := by
  cases hm : alGet uid s with
  | none => rw [end_conversation_no_user s uid tid hm]
  | some m =>
    by_cases hne : m = []
    · subst hne
      rw [end_conversation_empty_user s uid tid hm]
    · cases he : alGet tid m with
      | none => rw [end_conversation_no_entry s uid tid m hm hne he]
      | some e =>
        rw [end_conversation_found s uid tid m e hm hne he]
        by_cases hu : u = uid
        · subst hu
          have ht : t ≠ tid := fun hh => h ⟨rfl, hh⟩
          rw [get_conversation_of_user s u t m hm hne]
          by_cases hemp : alErase tid m = []
          · rw [get_conversation_empty_user _ u t (hemp ▸ alGet_alSet_self u (alErase tid m) s)]
            rw [← alGet_alErase_ne tid t m ht, hemp]
            rfl
          · rw [get_conversation_of_user _ u t (alErase tid m)
                (alGet_alSet_self u (alErase tid m) s) hemp,
              alGet_alErase_ne _ _ _ ht]
        · unfold get_conversation
          rw [alGet_alSet_ne _ _ _ _ hu]

/-- After `end_conversation` the slot is gone (also when it already was). -/
theorem get_conversation_end_self (s : ConvStore) (uid : Nat) (tid : String) :
    get_conversation (end_conversation s uid tid) uid tid = none := by
  cases hm : alGet uid s with
  | none =>
    rw [end_conversation_no_user s uid tid hm]
    exact get_conversation_no_user s uid tid hm
  | some m =>
    by_cases hne : m = []
    · subst hne
      rw [end_conversation_empty_user s uid tid hm]
      exact get_conversation_empty_user s uid tid hm
    · cases he : alGet tid m with
      | none =>
        rw [end_conversation_no_entry s uid tid m hm hne he]
        rw [get_conversation_of_user s uid tid m hm hne]
        exact he
      | some e =>
        rw [end_conversation_found s uid tid m e hm hne he]
        by_cases hemp : alErase tid m = []
        · exact get_conversation_empty_user _ uid tid
            (hemp ▸ alGet_alSet_self uid (alErase tid m) s)
        · rw [get_conversation_of_user _ uid tid (alErase tid m)
              (alGet_alSet_self uid (alErase tid m) s) hemp]
          exact alGet_alErase_self tid m

/-! ## C5 — link_message appends to related_message_ids -/

/-- C5.  For every existing entry at `(user_id, transaction_id)`,
`add_message_id_to_conversation_context` (the spec's `link_message`)
appends the given message id to the entry's `related_message_ids`,
initialising the collection when the key was absent, and leaves the rest
of the entry intact, so a later inbound reply carrying that message id can
be matched back to this conversation by `share_amount_entered`'s scan. -/
theorem C5_link_message_appends (s : ConvStore) (user_id : Nat) (transaction_id : String)
    (message_id : Nat) (e : ConvEntry)
    (h : get_conversation s user_id transaction_id = some e) :
    get_conversation (add_message_id_to_conversation_context s user_id transaction_id message_id)
        user_id transaction_id
      = some { e with
          related_message_ids := some (e.related_message_ids.getD [] ++ [message_id]) } :=
  get_conversation_updateEntry_self _ s user_id transaction_id e h

/-- C5 witness: linking message 9 to an existing entry that already owns
message 5 yields the ids `[5, 9]`. -/
theorem C5_link_message_appends_witness :
    get_conversation
        (add_message_id_to_conversation_context
          [(1, [("t", ⟨none, .ENTERING_SHARE_AMOUNT, some [5]⟩)])] 1 "t" 9) 1 "t"
      = some ⟨none, .ENTERING_SHARE_AMOUNT, some [5, 9]⟩ :=
  C5_link_message_appends [(1, [("t", ⟨none, .ENTERING_SHARE_AMOUNT, some [5]⟩)])] 1 "t" 9
    ⟨none, .ENTERING_SHARE_AMOUNT, some [5]⟩ (by decide)

/-! ## C6 — share-amount validation scenario -/

/-- C6.  For a conversation of user 9 in `ENTERING_SHARE_AMOUNT` on a
transaction of amount 100 (prompt message 77 linked), replying to that
prompt with `"-5"`, `"abc"` or `"200"` is rejected: the store keeps the
entry in `ENTERING_SHARE_AMOUNT` with the new prompt's message id 78
linked, the matching re-prompt is sent, and nothing is persisted; replying
`"40"` is accepted: `user_share` is set to 40, the finalized transaction
is handed to the persistence wrapper, the terminal message is sent and
the conversation entry is removed (the code's completion — there is no
separate `COMPLETED` store state; completion destroys the entry). -/
theorem C6_share_amount_validation :
    (ConversationStateMachine.share_amount_entered (fun _ => .ok true) (.ok 78)
        ⟨.ok (), .ok (), .ok ()⟩
        [(9, [("t1", ⟨some ⟨"t1", some "2024-01-05", some "10:00", some "Cafe X", 100,
            some "HDFC", some "UPI", some "Food", true, 0⟩, .ENTERING_SHARE_AMOUNT, some [77]⟩)])]
        (some ⟨9, some 77, "-5"⟩)
      = ⟨[(9, [("t1", ⟨some ⟨"t1", some "2024-01-05", some "10:00", some "Cafe X", 100,
            some "HDFC", some "UPI", some "Food", true, 0⟩, .ENTERING_SHARE_AMOUNT,
            some [77, 78]⟩)])],
         [.invalidShareNegative], none, none⟩)
    ∧ (ConversationStateMachine.share_amount_entered (fun _ => .ok true) (.ok 78)
        ⟨.ok (), .ok (), .ok ()⟩
        [(9, [("t1", ⟨some ⟨"t1", some "2024-01-05", some "10:00", some "Cafe X", 100,
            some "HDFC", some "UPI", some "Food", true, 0⟩, .ENTERING_SHARE_AMOUNT, some [77]⟩)])]
        (some ⟨9, some 77, "abc"⟩)
      = ⟨[(9, [("t1", ⟨some ⟨"t1", some "2024-01-05", some "10:00", some "Cafe X", 100,
            some "HDFC", some "UPI", some "Food", true, 0⟩, .ENTERING_SHARE_AMOUNT,
            some [77, 78]⟩)])],
         [.invalidAmountFormat], none, none⟩)
    ∧ (ConversationStateMachine.share_amount_entered (fun _ => .ok true) (.ok 78)
        ⟨.ok (), .ok (), .ok ()⟩
        [(9, [("t1", ⟨some ⟨"t1", some "2024-01-05", some "10:00", some "Cafe X", 100,
            some "HDFC", some "UPI", some "Food", true, 0⟩, .ENTERING_SHARE_AMOUNT, some [77]⟩)])]
        (some ⟨9, some 77, "200"⟩)
      = ⟨[(9, [("t1", ⟨some ⟨"t1", some "2024-01-05", some "10:00", some "Cafe X", 100,
            some "HDFC", some "UPI", some "Food", true, 0⟩, .ENTERING_SHARE_AMOUNT,
            some [77, 78]⟩)])],
         [.invalidShareExceedsTotal 200 100], none, none⟩)
    ∧ (ConversationStateMachine.share_amount_entered (fun _ => .ok true) (.ok 78)
        ⟨.ok (), .ok (), .ok ()⟩
        [(9, [("t1", ⟨some ⟨"t1", some "2024-01-05", some "10:00", some "Cafe X", 100,
            some "HDFC", some "UPI", some "Food", true, 0⟩, .ENTERING_SHARE_AMOUNT, some [77]⟩)])]
        (some ⟨9, some 77, "40"⟩)
      = ⟨[(9, [])],
         [.transactionUpdated ⟨"t1", some "2024-01-05", some "10:00", some "Cafe X", 100,
            some "HDFC", some "UPI", some "Food", true, 40⟩],
         some ⟨"t1", some "2024-01-05", some "10:00", some "Cafe X", 100,
            some "HDFC", some "UPI", some "Food", true, 40⟩, none⟩)
    ∧ get_conversation [(9, ([] : UserConvs))] 9 "t1" = none := by
  refine ⟨?_, ?_, ?_, ?_, ?_⟩ <;> decide

/-! ## C7 — completion cleanup (corrected) -/

/-- C7 counterexample: on an existing entry (user 3, transaction "tx",
amount 50, not shared), with a transport on which both the terminal send
and the generic-error send raise, `complete_transaction` emits no message,
lets the exception escape, and leaves the conversation entry in the store
(with the in-place `user_share` finalisation applied) — the entry is not
removed, contradicting the claim that completion always destroys it. -/
theorem C7_counterexample :
    (ConversationStateMachine.complete_transaction (fun _ => .ok true)
        ⟨.error .telegramError, .error .telegramError, .ok ()⟩
        [(3, [("tx", ⟨some ⟨"tx", none, none, none, 50, none, none, some "Food", false, 0⟩,
            .SELECTING_SHARING_TYPE, some []⟩)])] 3 "tx").sent = []
    ∧ get_conversation
        (ConversationStateMachine.complete_transaction (fun _ => .ok true)
          ⟨.error .telegramError, .error .telegramError, .ok ()⟩
          [(3, [("tx", ⟨some ⟨"tx", none, none, none, 50, none, none, some "Food", false, 0⟩,
              .SELECTING_SHARING_TYPE, some []⟩)])] 3 "tx").store 3 "tx"
      = some ⟨some ⟨"tx", none, none, none, 50, none, none, some "Food", false, 50⟩,
          .SELECTING_SHARING_TYPE, some []⟩
    ∧ (ConversationStateMachine.complete_transaction (fun _ => .ok true)
        ⟨.error .telegramError, .error .telegramError, .ok ()⟩
        [(3, [("tx", ⟨some ⟨"tx", none, none, none, 50, none, none, some "Food", false, 0⟩,
            .SELECTING_SHARING_TYPE, some []⟩)])] 3 "tx").raised = some .telegramError := by
  refine ⟨?_, ?_, ?_⟩ <;> decide

/-- C7 as amended: on an existing entry holding a transaction,
`complete_transaction` finalises `user_share` in place; then (a) if the
terminal send succeeds, exactly one terminal message is emitted — the
success text carrying the transaction when the wrapper reports `true`, the
distinct failure text when it reports `false` — and the entry is removed;
(b) if the terminal send raises and the generic-error send succeeds, the
generic error is reported and the entry is still removed; but (c) if the
generic-error send itself raises, the exception escapes and the entry is
left in the store — cleanup is not unconditional. -/
theorem C7_completion_cleanup (wp : Transaction → Except PyErr Bool) (tr : CompleteTransport)
    (s : ConvStore) (uid : Nat) (tid : String) (en : ConvEntry) (t : Transaction)
    (hget : get_conversation s uid tid = some en) (ht : en.transaction = some t) :
    (tr.confirmSend = .ok () →
        ConversationStateMachine.complete_transaction wp tr s uid tid =
          ⟨end_conversation
              (updateEntry (fun e => { e with transaction := some (finalizeShare t) }) s uid tid)
              uid tid,
            [if (PersistenceWrapper.write_transaction (wp (finalizeShare t))).result
              then BotMessage.transactionUpdated (finalizeShare t)
              else BotMessage.transactionUpdateFailed],
            some (finalizeShare t), none⟩
        ∧ get_conversation
            (ConversationStateMachine.complete_transaction wp tr s uid tid).store uid tid = none)
    ∧ (∀ e1, tr.confirmSend = .error e1 → tr.errorSend = .ok () →
        get_conversation
            (ConversationStateMachine.complete_transaction wp tr s uid tid).store uid tid = none
        ∧ (ConversationStateMachine.complete_transaction wp tr s uid tid).sent = [.errorMsg e1]
        ∧ (ConversationStateMachine.complete_transaction wp tr s uid tid).raised = none)
    ∧ (∀ e1 e2, tr.confirmSend = .error e1 → tr.errorSend = .error e2 →
        (ConversationStateMachine.complete_transaction wp tr s uid tid).store
            = updateEntry (fun e => { e with transaction := some (finalizeShare t) }) s uid tid
        ∧ get_conversation
            (ConversationStateMachine.complete_transaction wp tr s uid tid).store uid tid
            = some { en with transaction := some (finalizeShare t) }
        ∧ (ConversationStateMachine.complete_transaction wp tr s uid tid).sent = []
        ∧ (ConversationStateMachine.complete_transaction wp tr s uid tid).raised = some e2)
    ∧ (∀ t1, BotMessage.transactionUpdated t1 ≠ BotMessage.transactionUpdateFailed) := by
  obtain ⟨etx, est, eids⟩ := en
  have ht2 : etx = some t := ht
  subst ht2
  obtain ⟨cs, es, ns⟩ := tr
  refine ⟨?_, ?_, ?_, fun t1 h => BotMessage.noConfusion h⟩
  · intro hc
    have hc2 : cs = .ok () := hc
    subst hc2
    have h1 : ConversationStateMachine.complete_transaction wp ⟨.ok (), es, ns⟩ s uid tid =
        ⟨end_conversation
            (updateEntry (fun e => { e with transaction := some (finalizeShare t) }) s uid tid)
            uid tid,
          [if (PersistenceWrapper.write_transaction (wp (finalizeShare t))).result
            then BotMessage.transactionUpdated (finalizeShare t)
            else BotMessage.transactionUpdateFailed],
          some (finalizeShare t), none⟩ := by
      unfold ConversationStateMachine.complete_transaction
      rw [hget]
    refine ⟨h1, ?_⟩
    rw [h1]
    exact get_conversation_end_self _ uid tid
  · intro e1 hc he
    have hc2 : cs = .error e1 := hc
    have he2 : es = .ok () := he
    subst hc2
    subst he2
    have h1 : ConversationStateMachine.complete_transaction wp ⟨.error e1, .ok (), ns⟩ s uid tid =
        ⟨end_conversation
            (updateEntry (fun e => { e with transaction := some (finalizeShare t) }) s uid tid)
            uid tid,
          [.errorMsg e1], some (finalizeShare t), none⟩ := by
      unfold ConversationStateMachine.complete_transaction
      rw [hget]
    rw [h1]
    exact ⟨get_conversation_end_self _ uid tid, rfl, rfl⟩
  · intro e1 e2 hc he
    have hc2 : cs = .error e1 := hc
    have he2 : es = .error e2 := he
    subst hc2
    subst he2
    have h1 : ConversationStateMachine.complete_transaction wp ⟨.error e1, .error e2, ns⟩ s uid tid =
        ⟨updateEntry (fun e => { e with transaction := some (finalizeShare t) }) s uid tid,
          [], some (finalizeShare t), some e2⟩ := by
      unfold ConversationStateMachine.complete_transaction
      rw [hget]
    rw [h1]
    exact ⟨rfl,
      get_conversation_updateEntry_self
        (fun e => { e with transaction := some (finalizeShare t) }) s uid tid _ hget,
      rfl, rfl⟩

/-- C7 witness: the amended theorem at a concrete entry with a succeeding
transport — the entry is removed. -/
theorem C7_completion_cleanup_witness :
    get_conversation
        (ConversationStateMachine.complete_transaction (fun _ => .ok false)
          ⟨.ok (), .ok (), .ok ()⟩
          [(4, [("ty", ⟨some ⟨"ty", none, none, none, 20, none, none, some "Home", true, 5⟩,
              .ENTERING_SHARE_AMOUNT, some [11]⟩)])] 4 "ty").store 4 "ty" = none :=
  ((C7_completion_cleanup (fun _ => .ok false) ⟨.ok (), .ok (), .ok ()⟩
      [(4, [("ty", ⟨some ⟨"ty", none, none, none, 20, none, none, some "Home", true, 5⟩,
          .ENTERING_SHARE_AMOUNT, some [11]⟩)])] 4 "ty"
      ⟨some ⟨"ty", none, none, none, 20, none, none, some "Home", true, 5⟩,
        .ENTERING_SHARE_AMOUNT, some [11]⟩
      ⟨"ty", none, none, none, 20, none, none, some "Home", true, 5⟩
      (by decide) rfl).1 rfl).2

/-! ## Helper lemmas: reply correlation and frames -/

theorem findMatching_some {rid : Nat} {l : UserConvs} {tid : String}
    (h : findMatching rid l = .ok (some tid)) :
    ∃ e ids, (tid, e) ∈ l ∧ e.related_message_ids = some ids ∧ rid ∈ ids := by
  induction l with
  | nil => simp [findMatching] at h
  | cons p rest ih =>
    obtain ⟨t0, e0⟩ := p
    cases hids : e0.related_message_ids with
    | none =>
      simp [findMatching, hids] at h
    | some ids0 =>
      simp only [findMatching, hids] at h
      by_cases hmem : rid ∈ ids0
      · rw [if_pos hmem] at h
        injection h with h1
        injection h1 with h2
        subst h2
        exact ⟨e0, ids0, List.mem_cons_self _ _, hids, hmem⟩
      · rw [if_neg hmem] at h
        obtain ⟨e, ids, hm, hi, hr⟩ := ih h
        exact ⟨e, ids, List.mem_cons_of_mem _ hm, hi, hr⟩

theorem mem_conversations_by_state {s : ConvStore} {uid : Nat}
    {target : ConversationState} {p : String × ConvEntry}
    (h : p ∈ get_conversations_by_state s uid target) :
    ∃ m, alGet uid s = some m ∧ p ∈ m ∧ p.2.conversation_state = target := by
  unfold get_conversations_by_state at h
  cases hm : alGet uid s with
  | none =>
    rw [hm] at h
    simp at h
  | some m =>
    rw [hm] at h
    have h2 := List.mem_filter.mp h
    exact ⟨m, rfl, h2.1, of_decide_eq_true h2.2⟩

theorem conversations_by_state_nonempty {s : ConvStore} {uid : Nat}
    {target : ConversationState}
    (h : get_conversations_by_state s uid target ≠ []) :
    ∃ m, alGet uid s = some m ∧ m ≠ [] := by
  cases hm : alGet uid s with
  | none =>
    exfalso
    apply h
    unfold get_conversations_by_state
    rw [hm]
    rfl
  | some m =>
    refine ⟨m, rfl, ?_⟩
    intro hme
    apply h
    unfold get_conversations_by_state
    rw [hm, hme]
    rfl

/-- `complete_transaction` can only create, rewrite or delete the
`(user_id, transaction_id)` slot. -/
theorem complete_transaction_frame (wp : Transaction → Except PyErr Bool)
    (tr : CompleteTransport) (s : ConvStore) (uid : Nat) (tid : String)
    (u : Nat) (t : String) (h : ¬(u = uid ∧ t = tid)) :
    get_conversation (ConversationStateMachine.complete_transaction wp tr s uid tid).store u t
      = get_conversation s u t := by
  obtain ⟨cs, es, ns⟩ := tr
  cases hg : get_conversation s uid tid with
  | none =>
    cases ns with
    | ok a =>
      have h1 : (ConversationStateMachine.complete_transaction wp ⟨cs, es, .ok a⟩ s uid tid).store
          = s := by
        unfold ConversationStateMachine.complete_transaction
        rw [hg]
      rw [h1]
    | error e =>
      have h1 : (ConversationStateMachine.complete_transaction wp ⟨cs, es, .error e⟩ s uid tid).store
          = s := by
        unfold ConversationStateMachine.complete_transaction
        rw [hg]
      rw [h1]
  | some en =>
    obtain ⟨etx, est, eids⟩ := en
    cases etx with
    | none =>
      cases es with
      | ok a =>
        have h1 : (ConversationStateMachine.complete_transaction wp ⟨cs, .ok a, ns⟩ s uid tid).store
            = end_conversation s uid tid := by
          unfold ConversationStateMachine.complete_transaction
          rw [hg]
        rw [h1]
        exact get_conversation_end_frame s uid tid u t h
      | error e2 =>
        have h1 : (ConversationStateMachine.complete_transaction wp ⟨cs, .error e2, ns⟩ s uid tid).store
            = s := by
          unfold ConversationStateMachine.complete_transaction
          rw [hg]
        rw [h1]
    | some t0 =>
      cases cs with
      | ok a =>
        have h1 : (ConversationStateMachine.complete_transaction wp ⟨.ok a, es, ns⟩ s uid tid).store
            = end_conversation
                (updateEntry (fun e => { e with transaction := some (finalizeShare t0) }) s uid tid)
                uid tid := by
          unfold ConversationStateMachine.complete_transaction
          rw [hg]
        rw [h1, get_conversation_end_frame _ uid tid u t h]
        exact get_conversation_updateEntry_frame _ s uid tid u t h
      | error e1 =>
        cases es with
        | ok a =>
          have h1 : (ConversationStateMachine.complete_transaction wp ⟨.error e1, .ok a, ns⟩ s uid tid).store
              = end_conversation
                  (updateEntry (fun e => { e with transaction := some (finalizeShare t0) }) s uid tid)
                  uid tid := by
            unfold ConversationStateMachine.complete_transaction
            rw [hg]
          rw [h1, get_conversation_end_frame _ uid tid u t h]
          exact get_conversation_updateEntry_frame _ s uid tid u t h
        | error e2 =>
          have h1 : (ConversationStateMachine.complete_transaction wp ⟨.error e1, .error e2, ns⟩ s uid tid).store
              = updateEntry (fun e => { e with transaction := some (finalizeShare t0) }) s uid tid := by
            unfold ConversationStateMachine.complete_transaction
            rw [hg]
          rw [h1]
          exact get_conversation_updateEntry_frame _ s uid tid u t h

/-- Master case analysis for `share_amount_entered` on a reply message:
either the store comes back unchanged, or the handler acted on the first
waiting conversation whose linked message ids contain the replied-to id,
and every other slot of the store reads back unchanged. -/
theorem share_amount_entered_cases (wp : Transaction → Except PyErr Bool)
    (promptSend : Except PyErr Nat) (tr : CompleteTransport) (s : ConvStore)
    (mu rid : Nat) (mtext : String)
    (hwf : ∀ p ∈ s, ((p.2 : UserConvs).map Prod.fst).Nodup) :
    (ConversationStateMachine.share_amount_entered wp promptSend tr s
        (some ⟨mu, some rid, mtext⟩)).store = s
    ∨ ∃ tid e ids,
        (tid, e) ∈ get_conversations_by_state s mu .ENTERING_SHARE_AMOUNT
        ∧ get_conversation s mu tid = some e
        ∧ e.conversation_state = .ENTERING_SHARE_AMOUNT
        ∧ e.related_message_ids = some ids
        ∧ rid ∈ ids
        ∧ ∀ u t, ¬(u = mu ∧ t = tid) →
            get_conversation
                (ConversationStateMachine.share_amount_entered wp promptSend tr s
                  (some ⟨mu, some rid, mtext⟩)).store u t
              = get_conversation s u t := by
  by_cases hw : get_conversations_by_state s mu .ENTERING_SHARE_AMOUNT = []
  · left
    have hr : (ConversationStateMachine.share_amount_entered wp promptSend tr s
        (some ⟨mu, some rid, mtext⟩)) = ⟨s, [], none, none⟩ := by
      simp [ConversationStateMachine.share_amount_entered, hw]
    rw [hr]
  · cases hfm : findMatching rid (get_conversations_by_state s mu .ENTERING_SHARE_AMOUNT) with
    | error e0 =>
      left
      have hr : (ConversationStateMachine.share_amount_entered wp promptSend tr s
          (some ⟨mu, some rid, mtext⟩)) = ⟨s, [], none, some e0⟩ := by
        simp [ConversationStateMachine.share_amount_entered, hw, hfm]
      rw [hr]
    | ok otid =>
      cases otid with
      | none =>
        left
        have hr : (ConversationStateMachine.share_amount_entered wp promptSend tr s
            (some ⟨mu, some rid, mtext⟩)) = ⟨s, [], none, none⟩ := by
          simp [ConversationStateMachine.share_amount_entered, hw, hfm]
        rw [hr]
      | some tid =>
        by_cases htid : tid = ""
        · left
          have hr : (ConversationStateMachine.share_amount_entered wp promptSend tr s
              (some ⟨mu, some rid, mtext⟩)) = ⟨s, [], none, none⟩ := by
            simp [ConversationStateMachine.share_amount_entered, hw, hfm, htid]
          rw [hr]
        · obtain ⟨e, ids, hmemW, hids, hrm⟩ := findMatching_some hfm
          obtain ⟨m, hm, hmem, hstate⟩ := mem_conversations_by_state hmemW
          have hmne : m ≠ [] := List.ne_nil_of_mem hmem
          have hnd := hwf (mu, m) (alGet_mem hm)
          have hget : get_conversation s mu tid = some e := by
            rw [get_conversation_of_user s mu tid m hm hmne]
            exact alGet_of_mem_nodup hnd hmem
          cases hp : parsePyFloat mtext with
          | none =>
            cases promptSend with
            | error e0 =>
              left
              have hr : (ConversationStateMachine.share_amount_entered wp (.error e0) tr s
                  (some ⟨mu, some rid, mtext⟩)) = ⟨s, [], none, some e0⟩ := by
                simp [ConversationStateMachine.share_amount_entered, hw, hfm, htid, hp]
              rw [hr]
            | ok mid =>
              right
              refine ⟨tid, e, ids, hmemW, hget, hstate, hids, hrm, ?_⟩
              intro u t hut
              have hr : (ConversationStateMachine.share_amount_entered wp (.ok mid) tr s
                  (some ⟨mu, some rid, mtext⟩))
                  = ⟨add_message_id_to_conversation_context s mu tid mid,
                     [.invalidAmountFormat], none, none⟩ := by
                simp [ConversationStateMachine.share_amount_entered, hw, hfm, htid, hp]
              rw [hr]
              exact get_conversation_updateEntry_frame _ s mu tid u t hut
          | some share =>
            cases hc : alGet tid (get_conversations_by_state s mu .ENTERING_SHARE_AMOUNT) with
            | none =>
              left
              have hr : (ConversationStateMachine.share_amount_entered wp promptSend tr s
                  (some ⟨mu, some rid, mtext⟩)) = ⟨s, [], none, some .typeError⟩ := by
                simp [ConversationStateMachine.share_amount_entered, hw, hfm, htid, hp, hc]
              rw [hr]
            | some conv =>
              cases hct : conv.transaction with
              | none =>
                left
                have hr : (ConversationStateMachine.share_amount_entered wp promptSend tr s
                    (some ⟨mu, some rid, mtext⟩)) = ⟨s, [], none, some .attributeError⟩ := by
                  simp [ConversationStateMachine.share_amount_entered, hw, hfm, htid, hp, hc, hct]
                rw [hr]
              | some t0 =>
                by_cases hneg : share < 0
                · cases promptSend with
                  | error e0 =>
                    left
                    have hr : (ConversationStateMachine.share_amount_entered wp (.error e0) tr s
                        (some ⟨mu, some rid, mtext⟩)) = ⟨s, [], none, some e0⟩ := by
                      simp [ConversationStateMachine.share_amount_entered, hw, hfm, htid, hp,
                        hc, hct, hneg]
                    rw [hr]
                  | ok mid =>
                    right
                    refine ⟨tid, e, ids, hmemW, hget, hstate, hids, hrm, ?_⟩
                    intro u t hut
                    have hr : (ConversationStateMachine.share_amount_entered wp (.ok mid) tr s
                        (some ⟨mu, some rid, mtext⟩))
                        = ⟨add_message_id_to_conversation_context s mu tid mid,
                           [.invalidShareNegative], none, none⟩ := by
                      simp [ConversationStateMachine.share_amount_entered, hw, hfm, htid, hp,
                        hc, hct, hneg]
                    rw [hr]
                    exact get_conversation_updateEntry_frame _ s mu tid u t hut
                · by_cases hgt : share > t0.amount
                  · cases promptSend with
                    | error e0 =>
                      left
                      have hr : (ConversationStateMachine.share_amount_entered wp (.error e0) tr s
                          (some ⟨mu, some rid, mtext⟩)) = ⟨s, [], none, some e0⟩ := by
                        simp [ConversationStateMachine.share_amount_entered, hw, hfm, htid, hp,
                          hc, hct, hneg, hgt]
                      rw [hr]
                    | ok mid =>
                      right
                      refine ⟨tid, e, ids, hmemW, hget, hstate, hids, hrm, ?_⟩
                      intro u t hut
                      have hr : (ConversationStateMachine.share_amount_entered wp (.ok mid) tr s
                          (some ⟨mu, some rid, mtext⟩))
                          = ⟨add_message_id_to_conversation_context s mu tid mid,
                             [.invalidShareExceedsTotal share t0.amount], none, none⟩ := by
                        simp [ConversationStateMachine.share_amount_entered, hw, hfm, htid, hp,
                          hc, hct, hneg, hgt]
                      rw [hr]
                      exact get_conversation_updateEntry_frame _ s mu tid u t hut
                  · right
                    refine ⟨tid, e, ids, hmemW, hget, hstate, hids, hrm, ?_⟩
                    intro u t hut
                    have hr : (ConversationStateMachine.share_amount_entered wp promptSend tr s
                        (some ⟨mu, some rid, mtext⟩))
                        = ConversationStateMachine.complete_transaction wp tr
                            (update_user_share s mu tid share) mu tid := by
                      simp [ConversationStateMachine.share_amount_entered, hw, hfm, htid, hp,
                        hc, hct, hneg, hgt]
                    rw [hr, complete_transaction_frame wp tr _ mu tid u t hut]
                    exact get_conversation_updateEntry_frame _ s mu tid u t hut

/-! ## C8 — reply correlation is isolating -/

/-- C8.  For stores whose per-user maps carry no duplicate transaction
keys (every store the code builds does), `share_amount_entered` is
isolating: a non-reply message, and a reply whose replied-to id is linked
to no conversation of that user waiting in `ENTERING_SHARE_AMOUNT`, leave
the store untouched; and whenever any slot of the store reads back
differently, it is the single slot `(m.from_user, tid0)` of a conversation
that was in `ENTERING_SHARE_AMOUNT` with the replied-to id among its
`related_message_ids`. -/
theorem C8_reply_isolation (wp : Transaction → Except PyErr Bool)
    (promptSend : Except PyErr Nat) (tr : CompleteTransport)
    (s : ConvStore) (msg : Option MsgBody)
    (hwf : ∀ p ∈ s, ((p.2 : UserConvs).map Prod.fst).Nodup) :
    (msg = none →
        (ConversationStateMachine.share_amount_entered wp promptSend tr s msg).store = s)
    ∧ (∀ m, msg = some m → m.reply_to = none →
        (ConversationStateMachine.share_amount_entered wp promptSend tr s msg).store = s)
    ∧ (∀ m rid, msg = some m → m.reply_to = some rid →
        (∀ p ∈ get_conversations_by_state s m.from_user .ENTERING_SHARE_AMOUNT,
            rid ∉ p.2.related_message_ids.getD []) →
        (ConversationStateMachine.share_amount_entered wp promptSend tr s msg).store = s)
    ∧ (∀ m, msg = some m → ∃ tid0 : String,
        ∀ u t,
          get_conversation
              (ConversationStateMachine.share_amount_entered wp promptSend tr s msg).store u t
            ≠ get_conversation s u t →
          u = m.from_user ∧ t = tid0
          ∧ ∃ e rid ids, get_conversation s u t = some e
              ∧ e.conversation_state = .ENTERING_SHARE_AMOUNT
              ∧ m.reply_to = some rid ∧ e.related_message_ids = some ids ∧ rid ∈ ids) := by
  cases msg with
  | none =>
    refine ⟨fun _ => rfl, ?_, ?_, ?_⟩
    · intro m hm
      exact Option.noConfusion hm
    · intro m rid hm
      exact Option.noConfusion hm
    · intro m hm
      exact Option.noConfusion hm
  | some m =>
    obtain ⟨mu, mrt, mtext⟩ := m
    cases mrt with
    | none =>
      refine ⟨fun h => Option.noConfusion h, ?_, ?_, ?_⟩
      · intro m' hm hrt
        rfl
      · intro m' rid hm hrt hnm
        injection hm with hm'
        subst hm'
        exact Option.noConfusion hrt
      · intro m' hm
        exact ⟨"", fun u t hne => absurd rfl hne⟩
    | some rid0 =>
      refine ⟨fun h => Option.noConfusion h, ?_, ?_, ?_⟩
      · intro m' hm hrt
        injection hm with hm'
        subst hm'
        exact Option.noConfusion hrt
      · intro m' rid hm hrt hnm
        injection hm with hm'
        subst hm'
        have hr2 : rid0 = rid := by
          injection hrt
        subst hr2
        rcases share_amount_entered_cases wp promptSend tr s mu rid0 mtext hwf with
          hst | ⟨tid, e, ids, hmemW, hget, hstate, hids, hrm, hframe⟩
        · exact hst
        · exact absurd (show rid0 ∈ (tid, e).2.related_message_ids.getD [] by
            rw [hids]; exact hrm) (hnm (tid, e) hmemW)
      · intro m' hm
        injection hm with hm'
        subst hm'
        rcases share_amount_entered_cases wp promptSend tr s mu rid0 mtext hwf with
          hst | ⟨tid, e, ids, hmemW, hget, hstate, hids, hrm, hframe⟩
        · exact ⟨"", fun u t hne => absurd (by rw [hst]) hne⟩
        · refine ⟨tid, fun u t hne => ?_⟩
          by_cases hut : u = mu ∧ t = tid
          · obtain ⟨rfl, rfl⟩ := hut
            exact ⟨rfl, rfl, e, rid0, ids, hget, hstate, rfl, hids, hrm⟩
          · exact absurd (hframe u t hut) hne

/-- C8 witness: a reply to the unrelated message id 99 (the only waiting
conversation is linked to 7) leaves a concrete store unchanged. -/
theorem C8_reply_isolation_witness :
    (ConversationStateMachine.share_amount_entered (fun _ => .ok true) (.ok 50)
        ⟨.ok (), .ok (), .ok ()⟩
        [(4, [("tz", ⟨none, .ENTERING_SHARE_AMOUNT, some [7]⟩)])]
        (some ⟨4, some 99, "40"⟩)).store
      = [(4, [("tz", ⟨none, .ENTERING_SHARE_AMOUNT, some [7]⟩)])] :=
  (C8_reply_isolation (fun _ => .ok true) (.ok 50) ⟨.ok (), .ok (), .ok ()⟩
      [(4, [("tz", ⟨none, .ENTERING_SHARE_AMOUNT, some [7]⟩)])]
      (some ⟨4, some 99, "40"⟩) (by decide)).2.2.1 ⟨4, some 99, "40"⟩ 99 rfl rfl (by decide)
